import Mathlib

/-!
Shallow embedding of the two source files of this excerpt of
`great_expectations`:

* `great_expectations/datasource/pandas_reader_datasource.py` — the
  `_add_gx_args` decorator (its inner `wrapped` closure), the identifier
  heuristic `_decide_whether_to_use_variable_as_identifier`, the
  pass-through filter `_remove_excluded_arguments`, and the per-loader
  decorator configurations.
* `great_expectations/core/configuration.py` — `AbstractConfig.__init__`
  and `AbstractConfig.dict_round_trip`.

Python values that flow through the adapter (paths, buffers, data frames,
connections, ...) are modelled by the opaque type `Value`, which
distinguishes strings (the only case the code inspects) from everything
else.  Python `dict`s of keyword arguments are modelled as association
lists with unique keys; `datetime` timestamps are opaque naturals; raised
exceptions become `Except` errors.
-/

deriving instance DecidableEq for Except

namespace GxSpec

/-- A Python value as seen by the adapter: either a string (the only kind
the identifier heuristic inspects) or an opaque non-string object tagged
by a natural number (data frames, buffers, connections, ...). -/
inductive Value where
  | str : String → Value
  | obj : Nat → Value
deriving DecidableEq, Repr

/-- Characters matched by the regex class `\s` used in
`_decide_whether_to_use_variable_as_identifier`.  The source calls
`re.search('\s', var)` with a `str` pattern on a `str`, so `\s` matches
the full Unicode whitespace set of CPython (the characters for which
`str.isspace()` holds): the ASCII whitespace characters, the
information-separator controls U+001C–U+001F, NEL U+0085, NBSP U+00A0,
Ogham space U+1680, the U+2000–U+200A spaces, the line and paragraph
separators U+2028/U+2029, U+202F, U+205F and U+3000. -/
def isPySpace (c : Char) : Bool :=
  let n := c.toNat
  n = 0x9 || n = 0xa || n = 0xb || n = 0xc || n = 0xd ||
  (0x1c ≤ n && n ≤ 0x1f) || n = 0x20 || n = 0x85 || n = 0xa0 ||
  n = 0x1680 || (0x2000 ≤ n && n ≤ 0x200a) ||
  n = 0x2028 || n = 0x2029 || n = 0x202f || n = 0x205f || n = 0x3000

/-- `PandasReaderDatasource._decide_whether_to_use_variable_as_identifier`:
a non-string is never used as identifier; a string is used exactly when
`re.search('\s', var)` finds nothing, i.e. it has no whitespace. -/
def _decide_whether_to_use_variable_as_identifier (var : Option Value) : Bool :=
  match var with
  | some (Value.str s) => !(s.data.any isPySpace)
  | _ => false

/-- The static per-loader metadata passed to the `_add_gx_args` decorator. -/
structure GxArgsConfig where
  primary_arg_variable_name : Option String := none
  default_use_primary_arg_as_id : Option Bool := none
  arguments_excluded_from_runtime_parameters : List (String × Nat) := []
deriving DecidableEq, Repr

/-- The arguments of one call to a wrapped loader method.  `none` in
`use_primary_arg_as_id` means the caller did not pass the keyword at all,
so the parameter keeps its default `default_use_primary_arg_as_id`. -/
structure CallInput where
  primary_arg : Option Value := none
  args : List Value := []
  id_ : Option Value := none
  use_primary_arg_as_id : Option (Option Bool) := none
  expectation_suite : Option Value := none
  timestamp : Option Nat := none
  kwargs : List (String × Value) := []
deriving DecidableEq, Repr

/-- The exceptions `wrapped` raises itself (the delegated loader's own
exceptions are out of scope): the `ValueError` for the id/use-primary
conflict and the `TypeError` for a doubly-supplied primary argument. -/
inductive GxError where
  | idAndUsePrimaryArgAsId : GxError
  | multipleValuesForArgument : String → GxError
deriving DecidableEq, Repr

/-- The effective value of the `use_primary_arg_as_id` parameter at entry:
the caller's keyword if passed, otherwise the decorator default. -/
def resolved_upai (cfg : GxArgsConfig) (call : CallInput) : Option Bool :=
  call.use_primary_arg_as_id.getD cfg.default_use_primary_arg_as_id

/-- Lines 50–57 of `wrapped`: when no explicit `id_` was given, fall back
to the heuristic when the policy is `None`, then use the (still
positional) primary argument as identifier exactly when the decision is
truthy. -/
def resolved_id (cfg : GxArgsConfig) (call : CallInput) : Option Value :=
  match call.id_ with
  | some v => some v
  | none =>
      if (resolved_upai cfg call).getD
          (_decide_whether_to_use_variable_as_identifier call.primary_arg) then
        call.primary_arg
      else
        none

/-- Lines 67–71 of `wrapped`: if the loader's primary-argument name occurs
in `kwargs`, raise `TypeError` when a (non-`None`) positional primary was
also given, else pop it out of `kwargs` into the primary slot. -/
def promote_primary (cfg : GxArgsConfig) (call : CallInput) :
    Except GxError (Option Value × List (String × Value)) :=
  match cfg.primary_arg_variable_name with
  | none => Except.ok (call.primary_arg, call.kwargs)
  | some pname =>
      match call.kwargs.lookup pname with
      | none => Except.ok (call.primary_arg, call.kwargs)
      | some v =>
          if call.primary_arg.isSome then
            Except.error (GxError.multipleValuesForArgument pname)
          else
            Except.ok (some v, call.kwargs.filter (fun kv => kv.1 != pname))

/-- `PandasReaderDatasource._remove_excluded_arguments`: pop every excluded
name from `kwargs`, collect the (1-based) excluded positions minus one,
and keep only the positional arguments whose index is not collected. -/
def _remove_excluded_arguments (excluded : List (String × Nat))
    (args : List Value) (kwargs : List (String × Value)) :
    List Value × List (String × Value) :=
  let removeIndices : List Int := excluded.map (fun p => (p.2 : Int) - 1)
  let kwargs2 := kwargs.filter (fun kv => !(excluded.any (fun p => p.1 == kv.1)))
  let args2 := (args.enum.filter
      (fun ji => !(decide ((ji.1 : Int) ∈ removeIndices)))).map (fun ji => ji.2)
  (args2, kwargs2)

/-- The request `wrapped` builds (`RuntimeBatchRequest`), with its
`runtime_parameters` and `batch_identifiers` dictionaries flattened into
fields. -/
structure RuntimeBatchRequest where
  datasource_name : String
  data_connector_name : String
  data_asset_name : String
  batch_data : Value
  args : List Value
  kwargs : List (String × Value)
  id_ : Option Value
  timestamp : Nat
deriving DecidableEq, Repr

/-- One resolved table partition. -/
structure Batch where
  request : RuntimeBatchRequest
deriving DecidableEq, Repr

/-- Modelled from the spec: `get_single_batch_from_batch_request` lives on
the external `Datasource` base class, outside this excerpt; the spec only
says it resolves a load request into exactly one table partition. -/
def get_single_batch_from_batch_request (batch_request : RuntimeBatchRequest) : Batch :=
  { request := batch_request }

/-- The `Validator` built at the end of `wrapped`: the execution engine is
external and opaque, the expectation suite is passed through, and the
batch list holds the single resolved batch. -/
structure Validator where
  execution_engine : Unit
  expectation_suite : Option Value
  batches : List Batch
deriving DecidableEq, Repr

/-- The inner `wrapped` closure of `_add_gx_args`.  `func` is the
decorated loader body (it returns the loaded data frame), `selfName` is
`self.name`, and `now` is the value `datetime.datetime.now()` would
return during this call. -/
def wrapped (cfg : GxArgsConfig)
    (func : Option Value → List Value → List (String × Value) → Value)
    (selfName : String) (now : Nat) (call : CallInput) :
    Except GxError Validator :=
  if call.id_.isSome ∧ resolved_upai cfg call = some true then
    Except.error GxError.idAndUsePrimaryArgAsId
  else
    match promote_primary cfg call with
    | Except.error e => Except.error e
    | Except.ok pk =>
        let df := func pk.1 call.args pk.2
        let fk := _remove_excluded_arguments
          cfg.arguments_excluded_from_runtime_parameters call.args pk.2
        Except.ok {
          execution_engine := ()
          expectation_suite := call.expectation_suite
          batches := [ get_single_batch_from_batch_request {
            datasource_name := selfName
            data_connector_name := "runtime_data_connector"
            data_asset_name := "default_data_asset"
            batch_data := df
            args := fk.1
            kwargs := fk.2
            id_ := resolved_id cfg call
            timestamp := call.timestamp.getD now } ]
        }

/-! Per-loader decorator configurations, as written at the decoration
sites in `pandas_reader_datasource.py`. -/

def read_csv_cfg : GxArgsConfig :=
  { primary_arg_variable_name := some "filepath_or_buffer" }

def read_json_cfg : GxArgsConfig :=
  { primary_arg_variable_name := some "path_or_buf"
    default_use_primary_arg_as_id := some false }

def read_clipboard_cfg : GxArgsConfig :=
  { default_use_primary_arg_as_id := some false }

def read_sql_table_cfg : GxArgsConfig :=
  { primary_arg_variable_name := some "table_name"
    default_use_primary_arg_as_id := some true
    arguments_excluded_from_runtime_parameters := [("con", 1)] }

def read_sql_query_cfg : GxArgsConfig :=
  { primary_arg_variable_name := some "sql"
    default_use_primary_arg_as_id := some false
    arguments_excluded_from_runtime_parameters := [("con", 1)] }

def read_sql_cfg : GxArgsConfig :=
  { primary_arg_variable_name := some "sql"
    arguments_excluded_from_runtime_parameters := [("con", 1)] }

def read_feather_cfg : GxArgsConfig :=
  { primary_arg_variable_name := some "path"
    default_use_primary_arg_as_id := some true }

def read_parquet_cfg : GxArgsConfig :=
  { primary_arg_variable_name := some "path"
    default_use_primary_arg_as_id := some true }

/-! The configuration round-trip of `core/configuration.py`. -/

/-- The keyword arguments `AbstractConfig.__init__` accepts; `schema.load`
produces a mapping that is splatted into the constructor. -/
structure LoadedConfigFields where
  id_ : Option String := none
  name : Option String := none
deriving DecidableEq, Repr

/-- Modelled from the spec: the `ValidationError` raised by the
marshmallow-style schema (the shaded marshmallow library is outside this
excerpt). -/
inductive ValidationError where
  | invalid : String → ValidationError
deriving DecidableEq, Repr

/-- Modelled from the spec: the schema capability consumed by
`dict_round_trip`; `load` validates a raw mapping and either rejects it
with a `ValidationError` or returns the loaded constructor fields. -/
structure Schema where
  load : List (String × String) → Except ValidationError LoadedConfigFields

/-- `AbstractConfig.__init__`: the `id_` and `name` attributes are set
only when the corresponding argument is not `None`, modelled by the
option fields themselves. -/
structure AbstractConfig where
  id_ : Option String
  name : Option String
deriving DecidableEq, Repr

/-- Modelled from the spec: `to_json_dict` comes from
`SerializableDictDot` (outside this excerpt); per the spec it exposes the
internal `id_` field under the alias `id` and omits absent `id`/`name`
keys entirely instead of emitting null values. -/
def AbstractConfig.to_json_dict (c : AbstractConfig) : List (String × String) :=
  (match c.id_ with | some v => [("id", v)] | none => []) ++
  (match c.name with | some v => [("name", v)] | none => [])

/-- `AbstractConfig.dict_round_trip`: load the target through the schema
(a validation failure propagates and no partial result is produced),
build a config from the loaded fields, and serialize it back. -/
def dict_round_trip (schema : Schema) (target : List (String × String)) :
    Except ValidationError (List (String × String)) :=
  match schema.load target with
  | Except.error e => Except.error e
  | Except.ok loaded =>
      Except.ok (AbstractConfig.to_json_dict { id_ := loaded.id_, name := loaded.name })

/-! Helper lemmas shared by the claim theorems. -/

/-- When the caller passes no keyword arguments, the promotion step is the
identity on the primary slot. -/
lemma promote_primary_of_kwargs_nil (cfg : GxArgsConfig) (call : CallInput)
    (h : call.kwargs = []) :
    promote_primary cfg call = Except.ok (call.primary_arg, call.kwargs) := by
  unfold promote_primary
  cases cfg.primary_arg_variable_name <;> simp [h]

/-- Inversion for a successful `wrapped` call: the promotion step
succeeded, and the result is the validator built from the single batch
request assembled out of the call. -/
lemma wrapped_ok_inv (cfg : GxArgsConfig)
    (func : Option Value → List Value → List (String × Value) → Value)
    (selfName : String) (now : Nat) (call : CallInput) (v : Validator)
    (hok : wrapped cfg func selfName now call = Except.ok v) :
    ∃ pk, promote_primary cfg call = Except.ok pk ∧
      v = { execution_engine := ()
            expectation_suite := call.expectation_suite
            batches := [ get_single_batch_from_batch_request {
              datasource_name := selfName
              data_connector_name := "runtime_data_connector"
              data_asset_name := "default_data_asset"
              batch_data := func pk.1 call.args pk.2
              args := (_remove_excluded_arguments
                cfg.arguments_excluded_from_runtime_parameters call.args pk.2).1
              kwargs := (_remove_excluded_arguments
                cfg.arguments_excluded_from_runtime_parameters call.args pk.2).2
              id_ := resolved_id cfg call
              timestamp := call.timestamp.getD now } ] } := by
  unfold wrapped at hok
  split at hok
  · simp at hok
  · cases hpk : promote_primary cfg call with
    | error e => rw [hpk] at hok; simp at hok
    | ok pk =>
        rw [hpk] at hok
        simp only [Except.ok.injEq] at hok
        exact ⟨pk, rfl, hok.symm⟩

/-- Forward direction: a call that passes the two raising checks returns
the assembled validator. -/
lemma wrapped_ok_of (cfg : GxArgsConfig)
    (func : Option Value → List Value → List (String × Value) → Value)
    (selfName : String) (now : Nat) (call : CallInput)
    (pk : Option Value × List (String × Value))
    (hnc : ¬(call.id_.isSome = true ∧ resolved_upai cfg call = some true))
    (hpk : promote_primary cfg call = Except.ok pk) :
    wrapped cfg func selfName now call = Except.ok {
      execution_engine := ()
      expectation_suite := call.expectation_suite
      batches := [ get_single_batch_from_batch_request {
        datasource_name := selfName
        data_connector_name := "runtime_data_connector"
        data_asset_name := "default_data_asset"
        batch_data := func pk.1 call.args pk.2
        args := (_remove_excluded_arguments
          cfg.arguments_excluded_from_runtime_parameters call.args pk.2).1
        kwargs := (_remove_excluded_arguments
          cfg.arguments_excluded_from_runtime_parameters call.args pk.2).2
        id_ := resolved_id cfg call
        timestamp := call.timestamp.getD now } ] } := by
  unfold wrapped
  rw [if_neg hnc, hpk]

lemma lookup_filter_of_pred_false (p : String × Value → Bool)
    (l : List (String × Value)) (k : String)
    (h : ∀ w, p (k, w) = false) :
    (l.filter p).lookup k = none := by
  induction l with
  | nil => rfl
  | cons a t ih =>
      obtain ⟨k1, w⟩ := a
      by_cases hk : k1 = k
      · subst hk
        rw [List.filter_cons, h w]
        simpa using ih
      · rw [List.filter_cons]
        cases hpw : p (k1, w)
        · simpa using ih
        · simpa [List.lookup_cons, show (k == k1) = false from
            beq_eq_false_iff_ne.mpr (Ne.symm hk)] using ih

lemma lookup_filter_of_pred_true (p : String × Value → Bool)
    (l : List (String × Value)) (k : String)
    (h : ∀ w, p (k, w) = true) :
    (l.filter p).lookup k = l.lookup k := by
  induction l with
  | nil => rfl
  | cons a t ih =>
      obtain ⟨k1, w⟩ := a
      by_cases hk : k1 = k
      · subst hk
        rw [List.filter_cons, h w]
        simp [List.lookup_cons]
      · rw [List.filter_cons]
        cases hpw : p (k1, w)
        · simpa [List.lookup_cons, show (k == k1) = false from
            beq_eq_false_iff_ne.mpr (Ne.symm hk)] using ih
        · simp [List.lookup_cons, show (k == k1) = false from
            beq_eq_false_iff_ne.mpr (Ne.symm hk), ih]

lemma remove_excluded_args_eq (excluded : List (String × Nat))
    (args : List Value) (kwargs : List (String × Value)) :
    (_remove_excluded_arguments excluded args kwargs).1 =
      (args.enum.filter (fun ji =>
        decide (∀ q ∈ excluded, (q.2 : Int) - 1 ≠ (ji.1 : Int)))).map
        (fun ji => ji.2) := by
  unfold _remove_excluded_arguments
  refine congrArg _ (List.filter_congr ?_)
  intro x _
  rw [← decide_not]
  refine decide_eq_decide.mpr ?_
  rw [List.mem_map]
  push_neg
  rfl

/-! Claim theorems. -/

/-- Claim C2: supplying a non-`None` `id_` together with
`use_primary_arg_as_id=True` raises the mutual-exclusion `ValueError`
(the spec's `ConfigurationError`) for every loader, before the loader
body is consulted. -/
theorem c2_explicit_id_and_use_primary_conflict (cfg : GxArgsConfig)
    (func : Option Value → List Value → List (String × Value) → Value)
    (selfName : String) (now : Nat) (call : CallInput) (x : Value)
    (hid : call.id_ = some x)
    (hupai : call.use_primary_arg_as_id = some (some true)) :
    wrapped cfg func selfName now call =
      Except.error GxError.idAndUsePrimaryArgAsId := by
  unfold wrapped
  rw [if_pos]
  exact ⟨by simp [hid], by simp [resolved_upai, hupai]⟩

theorem c2_explicit_id_and_use_primary_conflict_witness :
    wrapped read_csv_cfg (fun _ _ _ => Value.obj 0) "ds" 0
      { primary_arg := some (Value.str "x"), id_ := some (Value.str "i"),
        use_primary_arg_as_id := some (some true) } =
      Except.error GxError.idAndUsePrimaryArgAsId :=
  c2_explicit_id_and_use_primary_conflict read_csv_cfg
    (fun _ _ _ => Value.obj 0) "ds" 0 _ (Value.str "i") rfl rfl

/-- Claim C8: for a loader whose default identifier policy is `True`,
supplying `id_` alone (without passing `use_primary_arg_as_id` at all)
also raises the mutual-exclusion error, since the parameter default makes
the unset case indistinguishable from an explicitly supplied `True`. -/
theorem c8_default_true_conflicts_with_explicit_id (cfg : GxArgsConfig)
    (func : Option Value → List Value → List (String × Value) → Value)
    (selfName : String) (now : Nat) (call : CallInput) (x : Value)
    (hdef : cfg.default_use_primary_arg_as_id = some true)
    (hid : call.id_ = some x)
    (hupai : call.use_primary_arg_as_id = none) :
    wrapped cfg func selfName now call =
      Except.error GxError.idAndUsePrimaryArgAsId := by
  unfold wrapped
  rw [if_pos]
  exact ⟨by simp [hid], by simp [resolved_upai, hupai, hdef]⟩

theorem c8_default_true_conflicts_with_explicit_id_witness :
    wrapped read_sql_table_cfg (fun _ _ _ => Value.obj 0) "ds" 0
      { primary_arg := some (Value.str "my_table"), id_ := some (Value.str "i") } =
      Except.error GxError.idAndUsePrimaryArgAsId :=
  c8_default_true_conflicts_with_explicit_id read_sql_table_cfg
    (fun _ _ _ => Value.obj 0) "ds" 0 _ (Value.str "i") rfl rfl rfl

/-- Claim C4: a loader whose default identifier policy is `True`, called
with only a positional primary string argument and no adapter-only
overrides, succeeds and records that string as the request identifier. -/
theorem c4_policy_true_primary_string_becomes_id (cfg : GxArgsConfig)
    (func : Option Value → List Value → List (String × Value) → Value)
    (selfName : String) (now : Nat) (s : String)
    (hdef : cfg.default_use_primary_arg_as_id = some true) :
    ∃ v b, wrapped cfg func selfName now { primary_arg := some (Value.str s) } =
        Except.ok v ∧
      v.batches = [b] ∧ b.request.id_ = some (Value.str s) := by
  have hok := wrapped_ok_of cfg func selfName now
    { primary_arg := some (Value.str s) }
    (some (Value.str s), [])
    (by simp) (promote_primary_of_kwargs_nil _ _ rfl)
  refine ⟨_, _, hok, rfl, ?_⟩
  simp [get_single_batch_from_batch_request, resolved_id, resolved_upai, hdef]

theorem c4_policy_true_primary_string_becomes_id_witness :
    ∃ v b, wrapped read_feather_cfg (fun _ _ _ => Value.obj 7) "ds" 5
        { primary_arg := some (Value.str "data.feather") } = Except.ok v ∧
      v.batches = [b] ∧ b.request.id_ = some (Value.str "data.feather") :=
  c4_policy_true_primary_string_becomes_id read_feather_cfg
    (fun _ _ _ => Value.obj 7) "ds" 5 "data.feather" rfl

/-- Claim C9: when the primary argument is supplied only under its keyword
name and no explicit identifier is given, the call succeeds but the
request identifier is `None` whatever the identifier policy, because
identifier resolution reads the still-empty positional primary slot
before the keyword value is promoted into it. -/
theorem c9_keyword_primary_yields_absent_id (cfg : GxArgsConfig)
    (func : Option Value → List Value → List (String × Value) → Value)
    (selfName : String) (now : Nat) (call : CallInput)
    (pname : String) (w : Value)
    (hp : cfg.primary_arg_variable_name = some pname)
    (hk : call.kwargs.lookup pname = some w)
    (hprim : call.primary_arg = none)
    (hid : call.id_ = none) :
    ∃ v b, wrapped cfg func selfName now call = Except.ok v ∧
      v.batches = [b] ∧ b.request.id_ = none ∧
      b.request.batch_data =
        func (some w) call.args (call.kwargs.filter (fun kv => kv.1 != pname)) := by
  have hpk : promote_primary cfg call =
      Except.ok (some w, call.kwargs.filter (fun kv => kv.1 != pname)) := by
    simp [promote_primary, hp, hk, hprim]
  have hok := wrapped_ok_of cfg func selfName now call _ (by simp [hid]) hpk
  refine ⟨_, _, hok, rfl, ?_, rfl⟩
  simp [get_single_batch_from_batch_request, resolved_id, hid, hprim]

theorem c9_keyword_primary_yields_absent_id_witness :
    ∃ v b, wrapped read_feather_cfg (fun _ _ _ => Value.obj 7) "ds" 5
        { kwargs := [("path", Value.str "data.feather")] } = Except.ok v ∧
      v.batches = [b] ∧ b.request.id_ = none ∧
      b.request.batch_data = (fun _ _ _ => Value.obj 7) (some (Value.str "data.feather"))
        ([] : List Value)
        ([("path", Value.str "data.feather")].filter (fun kv => kv.1 != "path")) :=
  c9_keyword_primary_yields_absent_id read_feather_cfg
    (fun _ _ _ => Value.obj 7) "ds" 5 _ "path" (Value.str "data.feather")
    rfl rfl rfl rfl

/-- Claim C1: with no explicit identifier and the per-loader default
policy unset, the heuristic decides the request identifier: a
whitespace-free string primary argument becomes the identifier, anything
else (a string with whitespace, a non-string, or no primary at all)
yields an absent identifier. -/
theorem c1_heuristic_identifier (cfg : GxArgsConfig)
    (func : Option Value → List Value → List (String × Value) → Value)
    (selfName : String) (now : Nat) (call : CallInput) (v : Validator) (b : Batch)
    (hdef : cfg.default_use_primary_arg_as_id = none)
    (hupai : call.use_primary_arg_as_id = none)
    (hid : call.id_ = none)
    (hok : wrapped cfg func selfName now call = Except.ok v)
    (hb : v.batches = [b]) :
    b.request.id_ = (match call.primary_arg with
      | some (Value.str s) =>
          if s.data.any isPySpace then none else some (Value.str s)
      | _ => none) := by
  obtain ⟨pk, hpk, hv⟩ := wrapped_ok_inv cfg func selfName now call v hok
  subst hv
  simp only [List.cons.injEq, and_true] at hb
  rw [← hb]
  show resolved_id cfg call = _
  unfold resolved_id resolved_upai
  rw [hid, hupai, hdef]
  cases hpa : call.primary_arg with
  | none => simp [_decide_whether_to_use_variable_as_identifier]
  | some x =>
      cases x with
      | obj n => simp [_decide_whether_to_use_variable_as_identifier]
      | str s =>
          simp only [Option.getD_none]
          unfold _decide_whether_to_use_variable_as_identifier
          cases h : s.data.any isPySpace <;> simp [h]

theorem c1_heuristic_identifier_witness :
    (Batch.mk ⟨"ds", "runtime_data_connector", "default_data_asset",
        Value.obj 7, [], [], none, 5⟩).request.id_ =
      (match some (Value.str "a b") with
        | some (Value.str s) =>
            if s.data.any isPySpace then none else some (Value.str s)
        | _ => none) :=
  c1_heuristic_identifier read_csv_cfg (fun _ _ _ => Value.obj 7) "ds" 5
    { primary_arg := some (Value.str "a b") }
    (Validator.mk () none [Batch.mk ⟨"ds", "runtime_data_connector",
      "default_data_asset", Value.obj 7, [], [], none, 5⟩])
    (Batch.mk ⟨"ds", "runtime_data_connector", "default_data_asset",
      Value.obj 7, [], [], none, 5⟩)
    rfl rfl rfl (by decide) rfl

/-- Claim C6: every successful wrapped call returns a validator holding
exactly one batch, resolved from a request under the asset name
"default_data_asset" that carries the loader result, the filtered
pass-through arguments, the resolved identifier, and the timestamp
(the explicit override if one was given, else the wall-clock time at
entry), with the validator bound to the optional expectation suite. -/
theorem c6_success_shape (cfg : GxArgsConfig)
    (func : Option Value → List Value → List (String × Value) → Value)
    (selfName : String) (now : Nat) (call : CallInput) (v : Validator)
    (hok : wrapped cfg func selfName now call = Except.ok v) :
    ∃ pk, promote_primary cfg call = Except.ok pk ∧
      v.batches = [ get_single_batch_from_batch_request {
        datasource_name := selfName
        data_connector_name := "runtime_data_connector"
        data_asset_name := "default_data_asset"
        batch_data := func pk.1 call.args pk.2
        args := (_remove_excluded_arguments
          cfg.arguments_excluded_from_runtime_parameters call.args pk.2).1
        kwargs := (_remove_excluded_arguments
          cfg.arguments_excluded_from_runtime_parameters call.args pk.2).2
        id_ := resolved_id cfg call
        timestamp := call.timestamp.getD now } ] ∧
      v.batches.length = 1 ∧
      v.expectation_suite = call.expectation_suite := by
  obtain ⟨pk, hpk, hv⟩ := wrapped_ok_inv cfg func selfName now call v hok
  subst hv
  exact ⟨pk, hpk, rfl, rfl, rfl⟩

theorem c6_success_shape_witness :
    ∃ pk, promote_primary read_feather_cfg
        { primary_arg := some (Value.str "data.feather"), timestamp := some 42 } =
        Except.ok pk ∧
      (Validator.mk () none [Batch.mk ⟨"ds", "runtime_data_connector",
          "default_data_asset", Value.obj 7, [], [],
          some (Value.str "data.feather"), 42⟩]).batches =
        [ get_single_batch_from_batch_request {
          datasource_name := "ds"
          data_connector_name := "runtime_data_connector"
          data_asset_name := "default_data_asset"
          batch_data := (fun _ _ _ => Value.obj 7) pk.1 ([] : List Value) pk.2
          args := (_remove_excluded_arguments
            read_feather_cfg.arguments_excluded_from_runtime_parameters
            ([] : List Value) pk.2).1
          kwargs := (_remove_excluded_arguments
            read_feather_cfg.arguments_excluded_from_runtime_parameters
            ([] : List Value) pk.2).2
          id_ := resolved_id read_feather_cfg
            { primary_arg := some (Value.str "data.feather"), timestamp := some 42 }
          timestamp := 42 } ] ∧
      (Validator.mk () none [Batch.mk ⟨"ds", "runtime_data_connector",
          "default_data_asset", Value.obj 7, [], [],
          some (Value.str "data.feather"), 42⟩]).batches.length = 1 ∧
      (Validator.mk () none [Batch.mk ⟨"ds", "runtime_data_connector",
          "default_data_asset", Value.obj 7, [], [],
          some (Value.str "data.feather"), 42⟩]).expectation_suite = none :=
  c6_success_shape read_feather_cfg (fun _ _ _ => Value.obj 7) "ds" 5
    { primary_arg := some (Value.str "data.feather"), timestamp := some 42 }
    (Validator.mk () none [Batch.mk ⟨"ds", "runtime_data_connector",
      "default_data_asset", Value.obj 7, [], [],
      some (Value.str "data.feather"), 42⟩])
    (by decide)

/-- Claim C3 (amended): for a loader that declares a primary-argument
name, when the mutual-exclusion conflict (explicit `id_` together with an
effective `use_primary_arg_as_id=True`) is not also present, supplying
the primary argument both positionally (non-`None`) and under its keyword
name fails with the `TypeError`-class ambiguous-argument error, and
supplying it only under its keyword name promotes the value into the
positional primary slot, so the underlying loader receives it as its
first argument. -/
theorem c3_ambiguous_or_promoted_primary (cfg : GxArgsConfig)
    (func : Option Value → List Value → List (String × Value) → Value)
    (selfName : String) (now : Nat) (call : CallInput)
    (pname : String) (w : Value)
    (hp : cfg.primary_arg_variable_name = some pname)
    (hk : call.kwargs.lookup pname = some w)
    (hnc : ¬(call.id_.isSome = true ∧ resolved_upai cfg call = some true)) :
    (call.primary_arg.isSome = true →
      wrapped cfg func selfName now call =
        Except.error (GxError.multipleValuesForArgument pname)) ∧
    (call.primary_arg = none →
      ∃ v b, wrapped cfg func selfName now call = Except.ok v ∧
        v.batches = [b] ∧
        b.request.batch_data =
          func (some w) call.args
            (call.kwargs.filter (fun kv => kv.1 != pname))) := by
  constructor
  · intro hprim
    have hpe : promote_primary cfg call =
        Except.error (GxError.multipleValuesForArgument pname) := by
      simp [promote_primary, hp, hk, hprim]
    unfold wrapped
    rw [if_neg hnc, hpe]
  · intro hprim
    have hpk : promote_primary cfg call =
        Except.ok (some w, call.kwargs.filter (fun kv => kv.1 != pname)) := by
      simp [promote_primary, hp, hk, hprim]
    exact ⟨_, _, wrapped_ok_of cfg func selfName now call _ hnc hpk, rfl, rfl⟩

theorem c3_ambiguous_primary_counterexample :
    wrapped read_csv_cfg (fun _ _ _ => Value.obj 0) "ds" 0
      { primary_arg := some (Value.str "x"), id_ := some (Value.str "i"),
        use_primary_arg_as_id := some (some true),
        kwargs := [("filepath_or_buffer", Value.str "y")] } =
      Except.error GxError.idAndUsePrimaryArgAsId ∧
    wrapped read_csv_cfg (fun _ _ _ => Value.obj 0) "ds" 0
      { primary_arg := some (Value.str "x"), id_ := some (Value.str "i"),
        use_primary_arg_as_id := some (some true),
        kwargs := [("filepath_or_buffer", Value.str "y")] } ≠
      Except.error (GxError.multipleValuesForArgument "filepath_or_buffer") := by
  exact ⟨by decide, by decide⟩

theorem c3_ambiguous_or_promoted_primary_witness :
    wrapped read_csv_cfg (fun _ _ _ => Value.obj 0) "ds" 0
      { primary_arg := some (Value.str "x"),
        kwargs := [("filepath_or_buffer", Value.str "y")] } =
      Except.error (GxError.multipleValuesForArgument "filepath_or_buffer") :=
  (c3_ambiguous_or_promoted_primary read_csv_cfg (fun _ _ _ => Value.obj 0)
    "ds" 0
    { primary_arg := some (Value.str "x"),
      kwargs := [("filepath_or_buffer", Value.str "y")] }
    "filepath_or_buffer" (Value.str "y") rfl rfl (by decide)).1 rfl

/-- Claim C5: arguments named or positioned in the per-loader exclusion
set are absent from the pass-through arguments recorded in the request,
even though the underlying loader received the unfiltered arguments; all
non-excluded keyword arguments keep their lookup value, and the recorded
positional list keeps exactly the entries at non-excluded positions. -/
theorem c5_excluded_arguments_not_recorded (cfg : GxArgsConfig)
    (func : Option Value → List Value → List (String × Value) → Value)
    (selfName : String) (now : Nat) (call : CallInput) (v : Validator) (b : Batch)
    (pk : Option Value × List (String × Value))
    (hpk : promote_primary cfg call = Except.ok pk)
    (hok : wrapped cfg func selfName now call = Except.ok v)
    (hb : v.batches = [b]) :
    b.request.batch_data = func pk.1 call.args pk.2 ∧
    (∀ nmE pos, (nmE, pos) ∈ cfg.arguments_excluded_from_runtime_parameters →
      b.request.kwargs.lookup nmE = none) ∧
    (∀ k, (∀ pos, (k, pos) ∉ cfg.arguments_excluded_from_runtime_parameters) →
      b.request.kwargs.lookup k = pk.2.lookup k) ∧
    b.request.args = (call.args.enum.filter (fun ji =>
      decide (∀ q ∈ cfg.arguments_excluded_from_runtime_parameters,
        (q.2 : Int) - 1 ≠ (ji.1 : Int)))).map (fun ji => ji.2) := by
  obtain ⟨pk2, hpk2, hv⟩ := wrapped_ok_inv cfg func selfName now call v hok
  rw [hpk] at hpk2
  injection hpk2 with hpkeq
  subst hpkeq
  subst hv
  simp only [List.cons.injEq, and_true] at hb
  subst hb
  refine ⟨rfl, ?_, ?_, ?_⟩
  · intro nmE pos hmem
    show ((pk.2.filter (fun kv =>
      !(cfg.arguments_excluded_from_runtime_parameters.any
        (fun p => p.1 == kv.1)))).lookup nmE) = none
    apply lookup_filter_of_pred_false
    intro w2
    simp only [Bool.not_eq_false', List.any_eq_true]
    exact ⟨(nmE, pos), hmem, by simp⟩
  · intro k hk
    show ((pk.2.filter (fun kv =>
      !(cfg.arguments_excluded_from_runtime_parameters.any
        (fun p => p.1 == kv.1)))).lookup k) = pk.2.lookup k
    apply lookup_filter_of_pred_true
    intro w2
    simp only [Bool.not_eq_true', List.any_eq_false]
    intro q hq
    simp only [beq_iff_eq]
    intro hq1
    subst hq1
    exact hk q.2 (by simpa using hq)
  · exact remove_excluded_args_eq cfg.arguments_excluded_from_runtime_parameters call.args pk.2

theorem c5_excluded_arguments_not_recorded_witness :
    (Batch.mk ⟨"ds", "runtime_data_connector", "default_data_asset",
      Value.obj 7, [Value.obj 2], [("x", Value.obj 3)],
      some (Value.str "my_table"), 5⟩).request.batch_data =
      (fun _ _ _ => Value.obj 7) (some (Value.str "my_table"))
        [Value.obj 9, Value.obj 2] [("con", Value.obj 8), ("x", Value.obj 3)] ∧
    (∀ nmE pos, (nmE, pos) ∈ read_sql_table_cfg.arguments_excluded_from_runtime_parameters →
      (Batch.mk ⟨"ds", "runtime_data_connector", "default_data_asset",
        Value.obj 7, [Value.obj 2], [("x", Value.obj 3)],
        some (Value.str "my_table"), 5⟩).request.kwargs.lookup nmE = none) ∧
    (∀ k, (∀ pos, (k, pos) ∉ read_sql_table_cfg.arguments_excluded_from_runtime_parameters) →
      (Batch.mk ⟨"ds", "runtime_data_connector", "default_data_asset",
        Value.obj 7, [Value.obj 2], [("x", Value.obj 3)],
        some (Value.str "my_table"), 5⟩).request.kwargs.lookup k =
        [("con", Value.obj 8), ("x", Value.obj 3)].lookup k) ∧
    (Batch.mk ⟨"ds", "runtime_data_connector", "default_data_asset",
      Value.obj 7, [Value.obj 2], [("x", Value.obj 3)],
      some (Value.str "my_table"), 5⟩).request.args =
      (([Value.obj 9, Value.obj 2].enum.filter (fun ji =>
        decide (∀ q ∈ read_sql_table_cfg.arguments_excluded_from_runtime_parameters,
          (q.2 : Int) - 1 ≠ (ji.1 : Int)))).map (fun ji => ji.2)) :=
  c5_excluded_arguments_not_recorded read_sql_table_cfg
    (fun _ _ _ => Value.obj 7) "ds" 5
    { primary_arg := some (Value.str "my_table"),
      args := [Value.obj 9, Value.obj 2],
      kwargs := [("con", Value.obj 8), ("x", Value.obj 3)] }
    (Validator.mk () none [Batch.mk ⟨"ds", "runtime_data_connector",
      "default_data_asset", Value.obj 7, [Value.obj 2], [("x", Value.obj 3)],
      some (Value.str "my_table"), 5⟩])
    (Batch.mk ⟨"ds", "runtime_data_connector", "default_data_asset",
      Value.obj 7, [Value.obj 2], [("x", Value.obj 3)],
      some (Value.str "my_table"), 5⟩)
    (some (Value.str "my_table"), [("con", Value.obj 8), ("x", Value.obj 3)])
    (by decide) (by decide) (by decide)

/-- Claim C10: the exclusion filter removes an excluded keyword name and
the positional slot at its 1-based position unconditionally: even when
the excluded argument was in fact passed by keyword, the recorded
positional list still loses whatever occupied that slot. -/
theorem c10_exclusion_is_unconditional (excluded : List (String × Nat))
    (args : List Value) (kwargs : List (String × Value))
    (nmE : String) (pos : Nat) (w : Value)
    (hmem : (nmE, pos) ∈ excluded) (_hkw : (nmE, w) ∈ kwargs)
    (h1 : 1 ≤ pos) (h2 : pos ≤ args.length) :
    (_remove_excluded_arguments excluded args kwargs).2.lookup nmE = none ∧
    (_remove_excluded_arguments excluded args kwargs).1.length < args.length := by
  constructor
  · show (kwargs.filter (fun kv => !(excluded.any (fun p => p.1 == kv.1)))).lookup nmE = none
    apply lookup_filter_of_pred_false
    intro w2
    simp only [Bool.not_eq_false', List.any_eq_true]
    exact ⟨(nmE, pos), hmem, by simp⟩
  · rw [remove_excluded_args_eq, List.length_map]
    have hlt : pos - 1 < args.length := by omega
    have hx : ((pos - 1 : Nat), args[pos - 1]) ∈ args.enum := by
      rw [List.mem_enum_iff_getElem?]
      exact List.getElem?_eq_getElem hlt
    have hfl : (args.enum.filter (fun ji =>
        decide (∀ q ∈ excluded, (q.2 : Int) - 1 ≠ (ji.1 : Int)))).length <
        args.enum.length := by
      rw [List.length_filter_lt_length_iff_exists]
      refine ⟨_, hx, ?_⟩
      simp only [decide_eq_true_eq]
      push_neg
      refine ⟨(nmE, pos), hmem, ?_⟩
      omega
    simpa [List.enum_length] using hfl

theorem c10_exclusion_is_unconditional_witness :
    (_remove_excluded_arguments [("con", 1)] [Value.obj 1]
      [("con", Value.obj 9)]).2.lookup "con" = none ∧
    (_remove_excluded_arguments [("con", 1)] [Value.obj 1]
      [("con", Value.obj 9)]).1.length < [Value.obj 1].length :=
  c10_exclusion_is_unconditional [("con", 1)] [Value.obj 1]
    [("con", Value.obj 9)] "con" 1 (Value.obj 9)
    (by decide) (by decide) (by decide) (by decide)

/-- Claim C7: the round trip fails with the schema's `ValidationError`
whenever the schema rejects the raw mapping, and on success returns the
canonical serialized form: `id_` is exposed as `id`, an absent `id` or
`name` produces no key at all, and loading an empty field set yields an
empty mapping. -/
theorem c7_dict_round_trip (schema : Schema) (target : List (String × String)) :
    (∀ e, schema.load target = Except.error e →
      dict_round_trip schema target = Except.error e) ∧
    (∀ loaded, schema.load target = Except.ok loaded →
      dict_round_trip schema target = Except.ok (
        (match loaded.id_ with | some v => [("id", v)] | none => []) ++
        (match loaded.name with | some v => [("name", v)] | none => []))) ∧
    (schema.load target = Except.ok {} →
      dict_round_trip schema target = Except.ok []) := by
  refine ⟨?_, ?_, ?_⟩
  · intro e he
    unfold dict_round_trip
    rw [he]
  · intro loaded hl
    unfold dict_round_trip
    rw [hl]
    rfl
  · intro hl
    unfold dict_round_trip
    rw [hl]
    rfl

theorem c7_dict_round_trip_witness :
    dict_round_trip (Schema.mk (fun _ => Except.ok {})) [] = Except.ok [] :=
  (c7_dict_round_trip (Schema.mk (fun _ => Except.ok {})) []).2.2 rfl

end GxSpec

